import Mathlib

/-!
Verification of the pose comparison and feedback-generation engine of the
expo-blazepose-frisbee-throws repository (src/services/AnalysisService.ts),
against its natural-language specification.

Modelling conventions:
* JS numbers are modelled as real numbers (`ℝ`); the service's arithmetic on
  angles involves `Math.sqrt`, `Math.acos` and `Math.PI`, so the embedding is
  `noncomputable` and comparisons on `ℝ` use the classical decidability
  instances.  `Math.round` is `⌊x + 1/2⌋` (round half toward +∞), yielding `ℤ`.
* The `DeviationScores` JS object maps the string key `"${side}_${joint}"` to
  `{deviation, severity}`.  Side and joint names contain no underscore, so the
  string key is in bijection with the `(side, joint)` pair, and the
  `segmentKey.split('_')` in `createFeedbackIssues` recovers exactly that pair;
  the embedding therefore keys the association list by the pair.  JS objects
  enumerate string keys in insertion order, so the association list also models
  the `Object.keys` / `Object.values` / `Object.entries` iteration order.
* `Array.prototype.sort` with the issue comparator (a stable sort into an order
  consistent with a total, transitive comparator) is modelled by
  `List.insertionSort` under the relation `cmp(a, b) ≤ 0`.
* The impure pieces of `generateFeedback` (`Date.now()`-based id, `new Date()`
  timestamp) are supplied as explicit arguments.
-/

namespace AnalysisService

/-- Embedding of `NormalizedLandmark` (types/pose.ts): x, y, z coordinates.
The optional `visibility` field is never read by AnalysisService and is
omitted. -/
structure NormalizedLandmark where
  x : ℝ
  y : ℝ
  z : ℝ

instance : Inhabited NormalizedLandmark := ⟨⟨0, 0, 0⟩⟩

/-- Embedding of `PoseLandmarkData` (types/pose.ts).  The `worldLandmarks`
field is never read by AnalysisService and is omitted; `frameIndex` and
`timestamp` are carried but unused by the comparison pipeline. -/
structure PoseLandmarkData where
  frameIndex : ℤ
  timestamp : ℝ
  landmarks : List NormalizedLandmark

instance : Inhabited PoseLandmarkData := ⟨⟨0, 0, []⟩⟩

/- The BlazePose landmark indices used by `calculateJointAngles`
(enum `PoseLandmarkIndex`, types/pose.ts). -/
namespace PoseLandmarkIndex

def LEFT_SHOULDER : Nat := 11

def RIGHT_SHOULDER : Nat := 12

def LEFT_ELBOW : Nat := 13

def RIGHT_ELBOW : Nat := 14

def LEFT_WRIST : Nat := 15

def RIGHT_WRIST : Nat := 16

def LEFT_INDEX : Nat := 19

def RIGHT_INDEX : Nat := 20

def LEFT_HIP : Nat := 23

def RIGHT_HIP : Nat := 24

def LEFT_KNEE : Nat := 25

def RIGHT_KNEE : Nat := 26

def LEFT_ANKLE : Nat := 27

def RIGHT_ANKLE : Nat := 28

end PoseLandmarkIndex

/-- JS array indexing `landmarks[i]`.  The §3 landmark contract guarantees 33
entries, so the zero default is never reached by in-contract callers. -/
def landmarkAt (landmarks : List NormalizedLandmark) (i : Nat) : NormalizedLandmark :=
  landmarks.getD i default

/-- The `Math.sqrt(x ** 2 + y ** 2 + z ** 2)` magnitude subexpressions of
`AnalysisService.calculateAngle` (lines 128-133). -/
noncomputable def magnitude (x y z : ℝ) : ℝ := Real.sqrt (x ^ 2 + y ^ 2 + z ^ 2)

/-- `AnalysisService.calculateAngle` (lines 103-151): angle in degrees at the
vertex `point2` between `point1` and `point3`.  Vectors from `point2` to
`point1` and `point3`, cosine from the dot product over the magnitude product,
clamped to [-1, 1], `acos`, radians to degrees; returns 0 when either
magnitude is zero (lines 136-138). -/
noncomputable def calculateAngle (point1 point2 point3 : NormalizedLandmark) : ℝ :=
  let vector1 : NormalizedLandmark :=
    ⟨point1.x - point2.x, point1.y - point2.y, point1.z - point2.z⟩
  let vector2 : NormalizedLandmark :=
    ⟨point3.x - point2.x, point3.y - point2.y, point3.z - point2.z⟩
  let dotProduct := vector1.x * vector2.x + vector1.y * vector2.y + vector1.z * vector2.z
  let magnitude1 := magnitude vector1.x vector1.y vector1.z
  let magnitude2 := magnitude vector2.x vector2.y vector2.z
  if magnitude1 = 0 ∨ magnitude2 = 0 then 0
  else
    let cosAngle := dotProduct / (magnitude1 * magnitude2)
    let clampedCosAngle := max (-1) (min 1 cosAngle)
    let angleRadians := Real.arccos clampedCosAngle
    angleRadians * 180 / Real.pi

/-- Left/right pair of angles: one entry of the `JointAngles` record. -/
structure SidePair where
  left : ℝ
  right : ℝ

/-- Embedding of `JointAngles` (types/pose.ts). -/
structure JointAngles where
  shoulder : SidePair
  elbow : SidePair
  wrist : SidePair
  hip : SidePair
  knee : SidePair

/-- `AnalysisService.calculateJointAngles` (lines 31-94). -/
noncomputable def calculateJointAngles (landmarks : List NormalizedLandmark) : JointAngles :=
  { shoulder :=
      ⟨calculateAngle (landmarkAt landmarks PoseLandmarkIndex.LEFT_HIP)
          (landmarkAt landmarks PoseLandmarkIndex.LEFT_SHOULDER)
          (landmarkAt landmarks PoseLandmarkIndex.LEFT_ELBOW),
        calculateAngle (landmarkAt landmarks PoseLandmarkIndex.RIGHT_HIP)
          (landmarkAt landmarks PoseLandmarkIndex.RIGHT_SHOULDER)
          (landmarkAt landmarks PoseLandmarkIndex.RIGHT_ELBOW)⟩
    elbow :=
      ⟨calculateAngle (landmarkAt landmarks PoseLandmarkIndex.LEFT_SHOULDER)
          (landmarkAt landmarks PoseLandmarkIndex.LEFT_ELBOW)
          (landmarkAt landmarks PoseLandmarkIndex.LEFT_WRIST),
        calculateAngle (landmarkAt landmarks PoseLandmarkIndex.RIGHT_SHOULDER)
          (landmarkAt landmarks PoseLandmarkIndex.RIGHT_ELBOW)
          (landmarkAt landmarks PoseLandmarkIndex.RIGHT_WRIST)⟩
    wrist :=
      ⟨calculateAngle (landmarkAt landmarks PoseLandmarkIndex.LEFT_ELBOW)
          (landmarkAt landmarks PoseLandmarkIndex.LEFT_WRIST)
          (landmarkAt landmarks PoseLandmarkIndex.LEFT_INDEX),
        calculateAngle (landmarkAt landmarks PoseLandmarkIndex.RIGHT_ELBOW)
          (landmarkAt landmarks PoseLandmarkIndex.RIGHT_WRIST)
          (landmarkAt landmarks PoseLandmarkIndex.RIGHT_INDEX)⟩
    hip :=
      ⟨calculateAngle (landmarkAt landmarks PoseLandmarkIndex.LEFT_SHOULDER)
          (landmarkAt landmarks PoseLandmarkIndex.LEFT_HIP)
          (landmarkAt landmarks PoseLandmarkIndex.LEFT_KNEE),
        calculateAngle (landmarkAt landmarks PoseLandmarkIndex.RIGHT_SHOULDER)
          (landmarkAt landmarks PoseLandmarkIndex.RIGHT_HIP)
          (landmarkAt landmarks PoseLandmarkIndex.RIGHT_KNEE)⟩
    knee :=
      ⟨calculateAngle (landmarkAt landmarks PoseLandmarkIndex.LEFT_HIP)
          (landmarkAt landmarks PoseLandmarkIndex.LEFT_KNEE)
          (landmarkAt landmarks PoseLandmarkIndex.LEFT_ANKLE),
        calculateAngle (landmarkAt landmarks PoseLandmarkIndex.RIGHT_HIP)
          (landmarkAt landmarks PoseLandmarkIndex.RIGHT_KNEE)
          (landmarkAt landmarks PoseLandmarkIndex.RIGHT_ANKLE)⟩ }

/-- Severity levels of the deviation scorer (types/pose.ts). -/
inductive Severity
  | high
  | medium
  | low
deriving DecidableEq

/-- The five entries of the `joints` array (`keyof JointAngles`, line 166). -/
inductive Joint
  | shoulder
  | elbow
  | wrist
  | hip
  | knee
deriving DecidableEq

/-- The two entries of the `sides` array (line 167). -/
inductive Side
  | left
  | right
deriving DecidableEq

/-- The `joints` iteration list of `calculateDeviations` (line 166). -/
def joints : List Joint := [.shoulder, .elbow, .wrist, .hip, .knee]

/-- The `sides` iteration list of `calculateDeviations` (line 167). -/
def sides : List Side := [.left, .right]

/-- Side of a `SidePair`: the dynamic access `pair[side]`. -/
def SidePair.get (pair : SidePair) : Side → ℝ
  | .left => pair.left
  | .right => pair.right

/-- Dynamic record access `angles[joint][side]` (lines 171-172). -/
def JointAngles.get (angles : JointAngles) (joint : Joint) (side : Side) : ℝ :=
  match joint with
  | .shoulder => angles.shoulder.get side
  | .elbow => angles.elbow.get side
  | .wrist => angles.wrist.get side
  | .hip => angles.hip.get side
  | .knee => angles.knee.get side

/-- One value of the `DeviationScores` map: `{deviation, severity}`. -/
structure DeviationEntry where
  deviation : ℝ
  severity : Severity

/-- Key of the `DeviationScores` map: the `(side, joint)` pair encoded in the
source as the string `` `${side}_${joint}` `` (line 185); see the file
comment for why the pair is a faithful key. -/
abbrev SegmentKey := Side × Joint

/-- Embedding of `DeviationScores` (types/pose.ts): an insertion-ordered map,
modelled as an association list. -/
abbrev DeviationScores := List (SegmentKey × DeviationEntry)

/-- Severity classification thresholds.  This exact if/else chain appears
verbatim twice in the source: in `calculateDeviations` (lines 176-183) and in
`calculateAverageDeviations` (lines 262-270). -/
noncomputable def severityFor (deviation : ℝ) : Severity :=
  if deviation > 15 then .high
  else if deviation ≥ 10 then .medium
  else .low

/-- `AnalysisService.calculateDeviations` (lines 159-194): for each joint and
side in iteration order, the absolute angle difference and its severity,
keyed by `(side, joint)`. -/
noncomputable def calculateDeviations (userAngles goldAngles : JointAngles) : DeviationScores :=
  (joints.map fun joint =>
    sides.map fun side =>
      let userAngle := userAngles.get joint side
      let goldAngle := goldAngles.get joint side
      let deviation := |userAngle - goldAngle|
      ((side, joint), DeviationEntry.mk deviation (severityFor deviation))).flatten

/-- Embedding of `ComparisonResult` (types/pose.ts).  `overallScore` is the
result of `Math.round`, an integer. -/
structure ComparisonResult where
  deviations : DeviationScores
  overallScore : ℤ
  keyFrames : List Nat

/-- One frame pair's deviation record: the body of the `comparePoses` loop
(lines 213-216) at index `i`.  The loop only reads indices below
`minFrames`, so the list defaults are never reached there. -/
noncomputable def frameDeviation (userLandmarks goldStandardLandmarks : List PoseLandmarkData)
    (i : Nat) : DeviationScores :=
  calculateDeviations
    (calculateJointAngles ((userLandmarks.getD i default).landmarks))
    (calculateJointAngles ((goldStandardLandmarks.getD i default).landmarks))

/-- The `allDeviations` array accumulated by the `comparePoses` loop
(lines 206-217): one `DeviationScores` per aligned frame pair.  `List.zip`
truncates to the shorter length exactly as the loop bound
`minFrames = Math.min(...)` (line 210) does. -/
noncomputable def allDeviationsOf (userLandmarks goldStandardLandmarks : List PoseLandmarkData) :
    List DeviationScores :=
  (userLandmarks.zip goldStandardLandmarks).map fun pair =>
    calculateDeviations (calculateJointAngles pair.1.landmarks)
      (calculateJointAngles pair.2.landmarks)

/-- `AnalysisService.calculateAverageDeviations` (lines 247-279): empty input
gives the empty map; otherwise the keys of the first frame each map to the
mean of that key's deviations over all frames, re-classified with the same
thresholds.  The lookup default models the (unreachable for
`calculateDeviations`-produced frames) undefined access `d[key]`. -/
noncomputable def calculateAverageDeviations (allDeviations : List DeviationScores) :
    DeviationScores :=
  match allDeviations with
  | [] => []
  | first :: _ =>
    let segmentKeys := first.map Prod.fst
    segmentKeys.map fun key =>
      let deviationValues := allDeviations.map fun d =>
        ((d.lookup key).getD (DeviationEntry.mk 0 .low)).deviation
      let averageDeviation := deviationValues.sum / (deviationValues.length : ℝ)
      (key, DeviationEntry.mk averageDeviation (severityFor averageDeviation))

/-- JS `Math.round`: round half toward positive infinity. -/
noncomputable def jsRound (x : ℝ) : ℤ := ⌊x + 1 / 2⌋

/-- `AnalysisService.calculateOverallScore` (lines 286-306): 100 on an empty
map; otherwise `Math.round(Math.max(0, Math.min(100, 100 - (avg / 30) * 100)))`
over the mean of the deviation values. -/
noncomputable def calculateOverallScore (deviations : DeviationScores) : ℤ :=
  let deviationValues := deviations.map Prod.snd
  if deviationValues.length = 0 then 100
  else
    let totalDeviation := (deviationValues.map DeviationEntry.deviation).sum
    let averageDeviation := totalDeviation / (deviationValues.length : ℝ)
    let score := max 0 (min 100 (100 - averageDeviation / 30 * 100))
    jsRound score

/-- `AnalysisService.comparePoses` (lines 202-240).  The source loop pushes
each frame's deviations and records index `i` as a key frame when any segment
of that frame has severity high; the range/filter form below is that loop,
with `allDeviations.getD i []` the i-th frame's record. -/
noncomputable def comparePoses (userLandmarks goldStandardLandmarks : List PoseLandmarkData) :
    ComparisonResult :=
  let minFrames := min userLandmarks.length goldStandardLandmarks.length
  let allDeviations := allDeviationsOf userLandmarks goldStandardLandmarks
  let keyFrames := (List.range minFrames).filter fun i =>
    (allDeviations.getD i []).any fun e => e.2.severity == Severity.high
  let averageDeviations := calculateAverageDeviations allDeviations
  { deviations := averageDeviations
    overallScore := calculateOverallScore averageDeviations
    keyFrames := keyFrames }

/-- Embedding of `BodySegment` (types/pose.ts): six segments, including
`ankle`, which no `JointAngles` entry ever produces. -/
inductive BodySegment
  | shoulder
  | elbow
  | wrist
  | hip
  | knee
  | ankle
deriving DecidableEq

/-- The `joint as BodySegment` cast after `segmentKey.split('_')`
(lines 354-355): on the five joints actually emitted by
`calculateDeviations` the cast is this injection, which never yields
`ankle`. -/
def Joint.toBodySegment : Joint → BodySegment
  | .shoulder => .shoulder
  | .elbow => .elbow
  | .wrist => .wrist
  | .hip => .hip
  | .knee => .knee

/-- Embedding of `FeedbackIssue` (types/pose.ts); `deviationDegrees` is the
result of `Math.round`, an integer. -/
structure FeedbackIssue where
  segment : BodySegment
  severity : Severity
  deviationDegrees : ℤ
  description : String
  recommendation : String
deriving DecidableEq

/-- Embedding of `FeedbackCategory` (types/pose.ts). -/
structure FeedbackCategory where
  name : String
  issues : List FeedbackIssue
deriving DecidableEq

/-- The side name string, recovered by `segmentKey.split('_')[0]`. -/
def Side.str : Side → String
  | .left => "left"
  | .right => "right"

/-- `AnalysisService.generateFeedbackText` (lines 445-486): the
description/recommendation template pair for a segment, interpolating the
capitalized side name and the rounded deviation.  The `severity` parameter is
accepted and unused, as in the source. -/
noncomputable def generateFeedbackText (segment : BodySegment) (side : Side) (deviation : ℝ)
    (severity : Severity) : String × String :=
  let sideText := side.str.capitalize
  let deviationText := toString (jsRound deviation) ++ "°"
  let _ := severity
  match segment with
  | .shoulder =>
    (sideText ++ " shoulder angle deviates by " ++ deviationText ++ " from ideal form",
      "Focus on keeping your shoulder aligned with your target. Practice rotating your shoulders smoothly through the throwing motion.")
  | .elbow =>
    (sideText ++ " elbow angle deviates by " ++ deviationText ++ " from ideal form",
      "Keep your elbow at the proper height and angle. Avoid dropping or raising your elbow too much during the throw.")
  | .wrist =>
    (sideText ++ " wrist angle deviates by " ++ deviationText ++ " from ideal form",
      "Maintain a firm wrist position throughout the throw. Practice wrist snap drills to improve control and consistency.")
  | .hip =>
    (sideText ++ " hip angle deviates by " ++ deviationText ++ " from ideal form",
      "Engage your hips more in the throwing motion. Rotate your hips toward the target to generate more power and accuracy.")
  | .knee =>
    (sideText ++ " knee angle deviates by " ++ deviationText ++ " from ideal form",
      "Check your stance and weight distribution. Maintain proper knee bend for stability and power transfer.")
  | .ankle =>
    (sideText ++ " ankle position deviates by " ++ deviationText ++ " from ideal form",
      "Ensure proper foot placement and ankle stability. Your base should be solid throughout the throwing motion.")

/-- The `severityOrder` table of the issue comparator (line 377). -/
def severityOrder : Severity → ℤ
  | .high => 0
  | .medium => 1
  | .low => 2

/-- The issue comparator of `createFeedbackIssues` (lines 375-381), as the
relation `cmp(a, b) ≤ 0` ("a sorts at or before b"): by severity rank when the
severities differ, otherwise by descending `deviationDegrees`.  JS
`Array.prototype.sort` with this comparator is a stable sort into an order
consistent with it, which `List.insertionSort` under this relation models. -/
def issueLE (a b : FeedbackIssue) : Prop :=
  if a.severity = b.severity then b.deviationDegrees ≤ a.deviationDegrees
  else severityOrder a.severity ≤ severityOrder b.severity

instance : DecidableRel issueLE := fun a b => by
  unfold issueLE
  infer_instance

/-- The loop body of `createFeedbackIssues` (lines 347-372): skip a low
severity entry, otherwise build the issue for its side and joint. -/
noncomputable def issueFor (entry : SegmentKey × DeviationEntry) : Option FeedbackIssue :=
  if entry.2.severity = Severity.low then none
  else
    let side := entry.1.1
    let joint := entry.1.2
    let segment := joint.toBodySegment
    let text := generateFeedbackText segment side entry.2.deviation entry.2.severity
    some
      { segment := segment
        severity := entry.2.severity
        deviationDegrees := jsRound entry.2.deviation
        description := text.1
        recommendation := text.2 }

/-- `AnalysisService.createFeedbackIssues` (lines 344-384): one issue per
non-low entry, sorted by the comparator. -/
noncomputable def createFeedbackIssues (deviations : DeviationScores) : List FeedbackIssue :=
  List.insertionSort issueLE (deviations.filterMap issueFor)

/-- The `upperBodySegments` list of `categorizeIssues` (line 392). -/
def upperBodySegments : List BodySegment := [.shoulder, .elbow, .wrist]

/-- The `lowerBodySegments` list of `categorizeIssues` (line 393). -/
def lowerBodySegments : List BodySegment := [.hip, .knee, .ankle]

/-- The fixed synthetic Overall Form issue (lines 420-426). -/
def overallFormIssue : FeedbackIssue :=
  { segment := .shoulder
    severity := .medium
    deviationDegrees := 0
    description := "Multiple form deviations detected across your throwing motion"
    recommendation := "Focus on the high-priority issues first, then work on refining your overall technique. Consider recording multiple throws to track improvement over time." }

/-- `AnalysisService.categorizeIssues` (lines 391-435): the sequential pushes
become a concatenation of conditional singleton lists. -/
def categorizeIssues (issues : List FeedbackIssue) : List FeedbackCategory :=
  let upperBodyIssues := issues.filter fun issue => upperBodySegments.contains issue.segment
  let lowerBodyIssues := issues.filter fun issue => lowerBodySegments.contains issue.segment
  (if upperBodyIssues.length > 0 then [FeedbackCategory.mk "Upper Body" upperBodyIssues] else []) ++
  (if lowerBodyIssues.length > 0 then [FeedbackCategory.mk "Lower Body" lowerBodyIssues] else []) ++
  (if issues.length ≥ 3 then [FeedbackCategory.mk "Overall Form" [overallFormIssue]] else [])

/-- Embedding of `AnalysisReport` (types/pose.ts); the `Date` timestamp is
milliseconds since the epoch. -/
structure AnalysisReport where
  id : String
  overallScore : ℤ
  categories : List FeedbackCategory
  timestamp : ℤ
  videoUri : String
  userLandmarks : List PoseLandmarkData

/-- `AnalysisService.generateFeedback` (lines 315-337).  The impure id
generation (`Date.now()` plus random suffix, line 327) and the `new Date()`
timestamp are effects of the JS runtime and are supplied as arguments. -/
noncomputable def generateFeedback (comparison : ComparisonResult) (videoUri : String)
    (userLandmarks : List PoseLandmarkData) (reportId : String) (timestamp : ℤ) :
    AnalysisReport :=
  let issues := createFeedbackIssues comparison.deviations
  let categories := categorizeIssues issues
  { id := reportId
    overallScore := comparison.overallScore
    categories := categories
    timestamp := timestamp
    videoUri := videoUri
    userLandmarks := userLandmarks }

/-- What the spec (§4.3 step 5) calls `meanDeviation`: the arithmetic mean of
the deviation values over all segments.  Written from the spec for comparison
with `calculateOverallScore`. -/
noncomputable def specMeanDeviation (deviations : DeviationScores) : ℝ :=
  (deviations.map fun e => e.2.deviation).sum / (deviations.length : ℝ)

/-- The spec formula for the overall score (§4.3 step 5):
`round(clamp(100 - (meanDeviation / 30) * 100, 0, 100))`.  Written from the
spec for comparison with `calculateOverallScore`. -/
noncomputable def specOverallScore (deviations : DeviationScores) : ℤ :=
  jsRound (max 0 (min 100 (100 - specMeanDeviation deviations / 30 * 100)))

/-- A `JointAngles` record with every angle equal to `a`. -/
def constAngles (a : ℝ) : JointAngles := ⟨⟨a, a⟩, ⟨a, a⟩, ⟨a, a⟩, ⟨a, a⟩, ⟨a, a⟩⟩

/-- A one-entry deviation map used to instantiate universally quantified
theorems at a concrete input. -/
def demoDeviations : DeviationScores :=
  [((Side.left, Joint.shoulder), DeviationEntry.mk 0 .low)]

theorem severityFor_of_gt {d : ℝ} (h : 15 < d) : severityFor d = .high := by
  simp [severityFor, h]

theorem severityFor_of_between {d : ℝ} (h1 : ¬ 15 < d) (h2 : 10 ≤ d) :
    severityFor d = .medium := by
  simp [severityFor, h1, h2]

theorem severityFor_of_lt {d : ℝ} (h : ¬ 10 ≤ d) : severityFor d = .low := by
  have h1 : ¬ 15 < d := fun hc => h (le_of_lt (lt_trans (by norm_num) hc))
  simp [severityFor, h1, h]

theorem mem_calculateDeviations {userAngles goldAngles : JointAngles}
    {e : SegmentKey × DeviationEntry} (h : e ∈ calculateDeviations userAngles goldAngles) :
    e.2.severity = severityFor e.2.deviation := by
  simp only [calculateDeviations, List.mem_flatten, List.mem_map] at h
  obtain ⟨l, ⟨joint, hj, rfl⟩, hm⟩ := h
  simp only [List.mem_map] at hm
  obtain ⟨side, hs, rfl⟩ := hm
  rfl

theorem mem_calculateAverageDeviations {allDeviations : List DeviationScores}
    {e : SegmentKey × DeviationEntry} (h : e ∈ calculateAverageDeviations allDeviations) :
    e.2.severity = severityFor e.2.deviation := by
  match allDeviations with
  | [] => simp [calculateAverageDeviations] at h
  | first :: rest =>
    simp only [calculateAverageDeviations, List.mem_map] at h
    obtain ⟨key, hk, rfl⟩ := h
    rfl

/-- C1 (amended): both in `calculateDeviations` and in the re-classification
of averaged deviations, severity is assigned by the fixed thresholds; at the
boundaries a deviation of exactly 10.0 is medium, 9.999 is low, 15.001 is
high, and exactly 15.0 is medium (not high): the strict `> 15` comparison
sends 15.0 to the `>= 10` branch. -/
theorem severity_thresholds :
    (∀ userAngles goldAngles : JointAngles,
        ∀ e ∈ calculateDeviations userAngles goldAngles,
          e.2.severity = severityFor e.2.deviation) ∧
    (∀ allDeviations : List DeviationScores,
        ∀ e ∈ calculateAverageDeviations allDeviations,
          e.2.severity = severityFor e.2.deviation) ∧
    severityFor 10 = Severity.medium ∧
    severityFor 15 = Severity.medium ∧
    severityFor (9999 / 1000) = Severity.low ∧
    severityFor (15001 / 1000) = Severity.high := by
  refine ⟨fun ua ga e he => mem_calculateDeviations he,
    fun ds e he => mem_calculateAverageDeviations he, ?_, ?_, ?_, ?_⟩
  · exact severityFor_of_between (by norm_num) (by norm_num)
  · exact severityFor_of_between (by norm_num) (by norm_num)
  · exact severityFor_of_lt (by norm_num)
  · exact severityFor_of_gt (by norm_num)

/-- C1 counterexample: with every user angle 15 and every gold angle 0, every
segment scored by `calculateDeviations` has deviation exactly 15 and is
classified medium — not high, as the claim states for a deviation of exactly
15.0. -/
theorem severity_fifteen_cx :
    ((calculateDeviations (constAngles 15) (constAngles 0)).map fun e =>
        (e.2.deviation, e.2.severity))
      = List.replicate 10 ((15 : ℝ), Severity.medium) ∧
    Severity.medium ≠ Severity.high := by
  constructor
  · have h15 : |(15 : ℝ) - 0| = 15 := by norm_num
    have hm : severityFor 15 = Severity.medium :=
      severityFor_of_between (by norm_num) (by norm_num)
    simp [calculateDeviations, joints, sides, constAngles, JointAngles.get, SidePair.get,
      List.replicate, h15, hm]
  · simp

theorem jsRound_hundred : jsRound (100 : ℝ) = 100 := by
  unfold jsRound
  rw [Int.floor_eq_iff]
  constructor <;> norm_num

theorem jsRound_zero : jsRound (0 : ℝ) = 0 := by
  unfold jsRound
  rw [Int.floor_eq_iff]
  constructor <;> norm_num

/-- C2: for every non-empty deviation map, the overall score computed by
`comparePoses` is the spec formula `round(clamp(100 - mean/30*100, 0, 100))`;
mean 0 gives 100, mean 30 gives 0, and any mean above 30 clamps to 0. -/
theorem overallScore_formula (deviations : DeviationScores) (h : deviations ≠ []) :
    calculateOverallScore deviations = specOverallScore deviations ∧
    (∀ userLandmarks goldStandardLandmarks : List PoseLandmarkData,
        (comparePoses userLandmarks goldStandardLandmarks).overallScore
          = calculateOverallScore
              (comparePoses userLandmarks goldStandardLandmarks).deviations) ∧
    (specMeanDeviation deviations = 0 → calculateOverallScore deviations = 100) ∧
    (specMeanDeviation deviations = 30 → calculateOverallScore deviations = 0) ∧
    (30 < specMeanDeviation deviations → calculateOverallScore deviations = 0) := by
  have hlen : (deviations.map Prod.snd).length ≠ 0 := by
    simpa [List.length_eq_zero] using h
  have hmain : calculateOverallScore deviations = specOverallScore deviations := by
    unfold calculateOverallScore specOverallScore specMeanDeviation
    rw [if_neg hlen]
    simp only [List.map_map, List.length_map]
    rfl
  have hscore : ∀ m : ℝ, specMeanDeviation deviations = m →
      calculateOverallScore deviations = jsRound (max 0 (min 100 (100 - m / 30 * 100))) := by
    intro m hm
    rw [hmain]
    unfold specOverallScore
    rw [hm]
  refine ⟨hmain, fun u g => rfl, ?_, ?_, ?_⟩
  · intro h0
    rw [hscore 0 h0]
    norm_num [jsRound_hundred]
  · intro h30
    rw [hscore 30 h30]
    norm_num [jsRound_zero]
  · intro h30
    rw [hscore _ rfl]
    have hx : 100 - specMeanDeviation deviations / 30 * 100 < 0 := by linarith
    rw [min_eq_right (by linarith), max_eq_left (by linarith)]
    exact jsRound_zero

/-- C2 witness: the formula theorem instantiated at a concrete one-entry
deviation map. -/
theorem overallScore_formula_witness :
    calculateOverallScore demoDeviations = specOverallScore demoDeviations ∧
    (∀ userLandmarks goldStandardLandmarks : List PoseLandmarkData,
        (comparePoses userLandmarks goldStandardLandmarks).overallScore
          = calculateOverallScore
              (comparePoses userLandmarks goldStandardLandmarks).deviations) ∧
    (specMeanDeviation demoDeviations = 0 → calculateOverallScore demoDeviations = 100) ∧
    (specMeanDeviation demoDeviations = 30 → calculateOverallScore demoDeviations = 0) ∧
    (30 < specMeanDeviation demoDeviations → calculateOverallScore demoDeviations = 0) :=
  overallScore_formula demoDeviations (List.cons_ne_nil _ _)

/-- C3: `comparePoses` with either input empty returns the defined degenerate
result — overall score 100, empty deviation map, empty key-frame list. -/
theorem comparePoses_empty :
    (∀ goldStandardLandmarks : List PoseLandmarkData,
        comparePoses [] goldStandardLandmarks
          = { deviations := [], overallScore := 100, keyFrames := [] }) ∧
    (∀ userLandmarks : List PoseLandmarkData,
        comparePoses userLandmarks []
          = { deviations := [], overallScore := 100, keyFrames := [] }) := by
  constructor <;> intro l <;>
    simp [comparePoses, allDeviationsOf, calculateAverageDeviations, calculateOverallScore]

theorem zip_take_min {α β : Type} (u : List α) (g : List β) :
    (u.take (min u.length g.length)).zip (g.take (min u.length g.length)) = u.zip g := by
  induction u generalizing g with
  | nil => simp
  | cons a u ih =>
    cases g with
    | nil => simp
    | cons b g =>
      simp only [List.length_cons, Nat.succ_min_succ, List.take_succ_cons, List.zip_cons_cons]
      rw [ih]

/-- C4: `comparePoses` processes exactly `min` many aligned frame pairs, and
its whole result is unchanged when both inputs are truncated to that length:
frames at or beyond the overlap have no effect. -/
theorem comparePoses_positional :
    (∀ userLandmarks goldStandardLandmarks : List PoseLandmarkData,
        (allDeviationsOf userLandmarks goldStandardLandmarks).length
          = min userLandmarks.length goldStandardLandmarks.length) ∧
    (∀ userLandmarks goldStandardLandmarks : List PoseLandmarkData,
        comparePoses userLandmarks goldStandardLandmarks
          = comparePoses
              (userLandmarks.take
                (min userLandmarks.length goldStandardLandmarks.length))
              (goldStandardLandmarks.take
                (min userLandmarks.length goldStandardLandmarks.length))) := by
  constructor
  · intro u g
    simp [allDeviationsOf]
  · intro u g
    have hz := zip_take_min u g
    have hlen : min (u.take (min u.length g.length)).length
        (g.take (min u.length g.length)).length = min u.length g.length := by
      simp only [List.length_take]
      omega
    simp only [comparePoses, allDeviationsOf, hz, hlen]

/-- C5: `calculateAngle` returns exactly 0 whenever either of the two vectors
out of the vertex has zero magnitude; the division by the magnitude product
is reached only when both magnitudes are nonzero. -/
theorem calculateAngle_degenerate (point1 point2 point3 : NormalizedLandmark)
    (h : magnitude (point1.x - point2.x) (point1.y - point2.y) (point1.z - point2.z) = 0 ∨
        magnitude (point3.x - point2.x) (point3.y - point2.y) (point3.z - point2.z) = 0) :
    calculateAngle point1 point2 point3 = 0 := by
  simp only [calculateAngle]
  rw [if_pos h]

/-- C5 witness: coincident proximal and vertex landmarks give angle exactly
0. -/
theorem calculateAngle_degenerate_witness :
    calculateAngle ⟨1, 2, 3⟩ ⟨1, 2, 3⟩ ⟨4, 5, 6⟩ = 0 :=
  calculateAngle_degenerate _ _ _ (Or.inl (by norm_num [magnitude]))

theorem allDeviationsOf_getD (u g : List PoseLandmarkData) (i : Nat)
    (h : i < min u.length g.length) :
    (allDeviationsOf u g).getD i [] = frameDeviation u g i := by
  have hu : i < u.length := lt_of_lt_of_le h (min_le_left _ _)
  have hg : i < g.length := lt_of_lt_of_le h (min_le_right _ _)
  have hm : i < (allDeviationsOf u g).length := by
    simp only [allDeviationsOf, List.length_map, List.length_zip]
    exact h
  rw [List.getD_eq_getElem _ _ hm]
  simp only [allDeviationsOf, frameDeviation, List.getElem_map, List.getElem_zip]
  rw [List.getD_eq_getElem _ _ hu, List.getD_eq_getElem _ _ hg]

/-- C6: an index is in the key-frame list returned by `comparePoses` exactly
when it is below the aligned-pair count and that pair's deviation record has
some segment with severity high; the key-frame list is strictly
increasing. -/
theorem keyFrames_spec :
    (∀ userLandmarks goldStandardLandmarks : List PoseLandmarkData, ∀ i : Nat,
        i ∈ (comparePoses userLandmarks goldStandardLandmarks).keyFrames ↔
          i < min userLandmarks.length goldStandardLandmarks.length ∧
          ∃ e ∈ frameDeviation userLandmarks goldStandardLandmarks i,
            e.2.severity = Severity.high) ∧
    (∀ userLandmarks goldStandardLandmarks : List PoseLandmarkData,
        List.Pairwise (fun a b => a < b)
          (comparePoses userLandmarks goldStandardLandmarks).keyFrames) := by
  constructor
  · intro u g i
    simp only [comparePoses, List.mem_filter, List.mem_range]
    constructor
    · rintro ⟨hirange, hany⟩
      rw [allDeviationsOf_getD u g i hirange] at hany
      simp only [List.any_eq_true, beq_iff_eq] at hany
      exact ⟨hirange, hany⟩
    · rintro ⟨hi, he⟩
      refine ⟨hi, ?_⟩
      rw [allDeviationsOf_getD u g i hi]
      simp only [List.any_eq_true, beq_iff_eq]
      exact he
  · intro u g
    have hp : List.Pairwise (fun a b => a < b)
        (List.range (min u.length g.length)) := List.pairwise_lt_range _
    exact hp.sublist (List.filter_sublist _)

theorem severityOrder_inj {s t : Severity} (h : severityOrder s = severityOrder t) : s = t := by
  cases s <;> cases t <;> simp_all [severityOrder]

instance : IsTotal FeedbackIssue issueLE where
  total a b := by
    unfold issueLE
    by_cases h : a.severity = b.severity
    · rw [if_pos h, if_pos h.symm]
      exact le_total _ _
    · rw [if_neg h, if_neg fun hh => h hh.symm]
      exact le_total _ _

instance : IsTrans FeedbackIssue issueLE where
  trans a b c hab hbc := by
    unfold issueLE at hab hbc ⊢
    by_cases h1 : a.severity = b.severity <;> by_cases h2 : b.severity = c.severity
    · rw [if_pos h1] at hab
      rw [if_pos h2] at hbc
      rw [if_pos (h1.trans h2)]
      exact le_trans hbc hab
    · rw [if_pos h1] at hab
      rw [if_neg h2] at hbc
      rw [if_neg fun hc => h2 (h1.symm.trans hc)]
      rw [h1]
      exact hbc
    · rw [if_neg h1] at hab
      rw [if_pos h2] at hbc
      rw [if_neg fun hc => h1 (hc.trans h2.symm)]
      rw [← h2]
      exact hab
    · rw [if_neg h1] at hab
      rw [if_neg h2] at hbc
      by_cases hac : a.severity = c.severity
      · exfalso
        have h3 : severityOrder b.severity ≤ severityOrder a.severity := by
          rw [hac]
          exact hbc
        exact h1 (severityOrder_inj (le_antisymm hab h3))
      · rw [if_neg hac]
        exact le_trans hab hbc

theorem issueFor_spec {entry : SegmentKey × DeviationEntry} {issue : FeedbackIssue}
    (h : issueFor entry = some issue) :
    issue.severity = entry.2.severity ∧ issue.severity ≠ Severity.low ∧
    issue.segment = entry.1.2.toBodySegment := by
  unfold issueFor at h
  split at h
  · simp at h
  · rename_i hlow
    simp only [Option.some.injEq] at h
    subst h
    exact ⟨rfl, hlow, rfl⟩

theorem length_filterMap_issueFor (ds : DeviationScores) :
    (ds.filterMap issueFor).length
      = (ds.filter fun e => !(e.2.severity == Severity.low)).length := by
  induction ds with
  | nil => rfl
  | cons e ds ih =>
    by_cases hl : e.2.severity = Severity.low
    · simp [List.filterMap_cons, List.filter_cons, issueFor, hl, ih]
    · simp [List.filterMap_cons, List.filter_cons, issueFor, hl, ih]

theorem length_createFeedbackIssues (ds : DeviationScores) :
    (createFeedbackIssues ds).length
      = (ds.filter fun e => !(e.2.severity == Severity.low)).length := by
  unfold createFeedbackIssues
  rw [List.length_insertionSort]
  exact length_filterMap_issueFor ds

theorem mem_createFeedbackIssues {ds : DeviationScores} {issue : FeedbackIssue}
    (h : issue ∈ createFeedbackIssues ds) :
    issue.severity ≠ Severity.low ∧ issue.segment ≠ BodySegment.ankle := by
  unfold createFeedbackIssues at h
  rw [List.mem_insertionSort] at h
  obtain ⟨e, he, hfe⟩ := List.mem_filterMap.mp h
  obtain ⟨hsev, hlow, hseg⟩ := issueFor_spec hfe
  refine ⟨hlow, ?_⟩
  rw [hseg]
  cases e.1.2 <;> simp [Joint.toBodySegment]

theorem mem_categorizeIssues {issues : List FeedbackIssue} {category : FeedbackCategory}
    (h : category ∈ categorizeIssues issues) :
    (∀ issue ∈ category.issues, issue ∈ issues) ∨ category.issues = [overallFormIssue] := by
  unfold categorizeIssues at h
  simp only [List.append_assoc, List.mem_append] at h
  rcases h with h | h | h
  · left
    split at h
    · simp only [List.mem_singleton] at h
      subst h
      intro issue hi
      exact (List.mem_filter.mp hi).1
    · simp at h
  · left
    split at h
    · simp only [List.mem_singleton] at h
      subst h
      intro issue hi
      exact (List.mem_filter.mp hi).1
    · simp at h
  · right
    split at h
    · simp only [List.mem_singleton] at h
      subst h
      rfl
    · simp at h

/-- C7: the feedback synthesizer skips every low-severity segment entry — no
issue it creates is low, the number of issues equals the number of non-low
entries, and no category of the generated report contains a low issue. -/
theorem no_low_issues :
    (∀ deviations : DeviationScores, ∀ issue ∈ createFeedbackIssues deviations,
        issue.severity ≠ Severity.low) ∧
    (∀ deviations : DeviationScores,
        (createFeedbackIssues deviations).length
          = (deviations.filter fun e => !(e.2.severity == Severity.low)).length) ∧
    (∀ (comparison : ComparisonResult) (videoUri : String)
        (userLandmarks : List PoseLandmarkData) (reportId : String) (timestamp : ℤ),
        ∀ category ∈ (generateFeedback comparison videoUri userLandmarks reportId
            timestamp).categories,
          ∀ issue ∈ category.issues, issue.severity ≠ Severity.low) := by
  refine ⟨fun ds issue h => (mem_createFeedbackIssues h).1, length_createFeedbackIssues, ?_⟩
  intro comparison videoUri userLandmarks reportId timestamp category hc issue hi
  have hc2 : category ∈ categorizeIssues (createFeedbackIssues comparison.deviations) := hc
  rcases mem_categorizeIssues hc2 with hall | hof
  · exact (mem_createFeedbackIssues (hall issue hi)).1
  · rw [hof] at hi
    simp only [List.mem_singleton] at hi
    subst hi
    simp [overallFormIssue]

/-- C8: the report appends the synthetic Overall Form category — exactly one
fixed medium-severity shoulder-placeholder issue with 0 degrees — precisely
when at least 3 non-low segment entries exist, and otherwise no such
category appears. -/
theorem overallForm_trigger (comparison : ComparisonResult) (videoUri : String)
    (userLandmarks : List PoseLandmarkData) (reportId : String) (timestamp : ℤ) :
    ((generateFeedback comparison videoUri userLandmarks reportId timestamp).categories.filter
        fun category => category.name == "Overall Form")
      = if 3 ≤ (comparison.deviations.filter
            fun e => !(e.2.severity == Severity.low)).length
        then [FeedbackCategory.mk "Overall Form" [overallFormIssue]]
        else [] := by
  have h1 : (("Upper Body" : String) == "Overall Form") = false := by decide
  have h2 : (("Lower Body" : String) == "Overall Form") = false := by decide
  have h3 : (("Overall Form" : String) == "Overall Form") = true := by decide
  have hfilter : ∀ (lu ll : List FeedbackIssue) (n : Nat),
      (((if lu.length > 0 then [FeedbackCategory.mk "Upper Body" lu] else []) ++
        (if ll.length > 0 then [FeedbackCategory.mk "Lower Body" ll] else []) ++
        (if n ≥ 3 then [FeedbackCategory.mk "Overall Form" [overallFormIssue]] else [])).filter
          fun category => category.name == "Overall Form")
        = if 3 ≤ n then [FeedbackCategory.mk "Overall Form" [overallFormIssue]] else [] := by
    intro lu ll n
    split_ifs <;> simp_all [List.filter_append, List.filter_cons]
  have hlen := length_createFeedbackIssues comparison.deviations
  simp only [generateFeedback, categorizeIssues]
  rw [← hlen]
  exact hfilter _ _ _

theorem createFeedbackIssues_sorted (ds : DeviationScores) :
    List.Pairwise issueLE (createFeedbackIssues ds) := by
  unfold createFeedbackIssues
  exact List.sorted_insertionSort issueLE _

/-- C9: the synthesized issue list is ordered by severity rank (high before
medium) and, within equal severity, by descending rounded deviation. -/
theorem issue_ordering (deviations : DeviationScores) :
    List.Pairwise
      (fun a b => severityOrder a.severity ≤ severityOrder b.severity ∧
        (a.severity = b.severity → b.deviationDegrees ≤ a.deviationDegrees))
      (createFeedbackIssues deviations) := by
  refine (createFeedbackIssues_sorted deviations).imp ?_
  intro a b h
  unfold issueLE at h
  by_cases hs : a.severity = b.severity
  · rw [if_pos hs] at h
    exact ⟨by rw [hs], fun _ => h⟩
  · rw [if_neg hs] at h
    exact ⟨h, fun hc => absurd hc hs⟩

/-- C10: no report produced by the documented pipeline (comparePoses followed
by generateFeedback) ever contains an ankle issue: the deviation keys range
over the five computed joints only and the synthetic issue uses the shoulder
placeholder. -/
theorem no_ankle_issue (userLandmarks goldStandardLandmarks : List PoseLandmarkData)
    (videoUri : String) (reportLandmarks : List PoseLandmarkData) (reportId : String)
    (timestamp : ℤ) :
    ((generateFeedback (comparePoses userLandmarks goldStandardLandmarks) videoUri
        reportLandmarks reportId timestamp).categories.all
      fun category => category.issues.all fun issue =>
        !(issue.segment == BodySegment.ankle)) = true := by
  simp only [List.all_eq_true, Bool.not_eq_eq_eq_not, Bool.not_true, beq_eq_false_iff_ne]
  intro category hc issue hi
  have hc2 : category ∈ categorizeIssues
      (createFeedbackIssues (comparePoses userLandmarks goldStandardLandmarks).deviations) := hc
  rcases mem_categorizeIssues hc2 with hall | hof
  · exact (mem_createFeedbackIssues (hall issue hi)).2
  · rw [hof] at hi
    simp only [List.mem_singleton] at hi
    subst hi
    simp [overallFormIssue]

end AnalysisService
